import Mathlib

/-!
Shallow embedding of the reSID filter module (filter.cc): the spline
control point tables, the register decode operations, and the derivation
of the two filter coefficients. The floating point intermediates of the
source are modelled as exact rationals; the conversion to the integer
sample type is the floor, which agrees with the C truncation toward zero
on the nonnegative values arising here.
-/

namespace Resid

/-- A spline interpolation control point: an (FC code, cutoff frequency in Hz) pair. -/
abbrev fc_point := Nat × Nat

/-- Spline interpolation points for the MOS6581 cutoff curve, verbatim from filter.cc. -/
def f0_6581 : List fc_point :=
  [ (0, 220), (128, 230), (256, 250), (384, 300), (512, 420), (640, 780),
    (768, 1600), (832, 2300), (896, 3200), (960, 4300), (992, 5000),
    (1008, 5400), (1016, 5700), (1023, 6000), (1023, 6000), (1024, 4600),
    (1024, 4600), (1032, 4800), (1056, 5300), (1088, 6000), (1120, 6600),
    (1152, 7200), (1280, 9500), (1408, 12000), (1536, 14500), (1664, 16000),
    (1792, 17100), (1920, 17700), (2047, 18000) ]

/-- Spline interpolation points for the MOS8580 cutoff curve, verbatim from filter.cc. -/
def f0_8580 : List fc_point :=
  [ (0, 0), (128, 800), (256, 1600), (384, 2500), (512, 3300), (640, 4100),
    (768, 4800), (896, 5600), (1024, 6500), (1152, 7500), (1280, 8400),
    (1408, 9200), (1536, 9800), (1664, 10500), (1792, 11000), (1920, 11700),
    (2047, 12500) ]

/-- The two supported chip variants. -/
inductive chip_model where
  | MOS6581
  | MOS8580
deriving DecidableEq

/-- The double constant pi of Filter::set_w0, modelled as the exact value of
the source literal 3.1415926535897932385. -/
def pi_d : ℚ := 3.1415926535897932385

/-- Conversion of a double to the integer type sound_sample. The C cast
truncates toward zero; every value converted in this development is
nonnegative, where truncation coincides with the floor. -/
def sound_sample_of (q : ℚ) : ℤ := ⌊q⌋

/-- The exact value computed by Filter::set_w0 before the integer
conversion: 2*pi*f0[fc]*1.048576. -/
def w0_exact (f : ℤ) : ℚ := 2 * pi_d * (f : ℚ) * (1.048576 : ℚ)

/-- The exact value computed by Filter::set_Q before the integer
conversion: 1024.0/(0.707 + 1.0*res/0x0f). -/
def Q_exact (res : ℕ) : ℚ := 1024 / ((0.707 : ℚ) + 1 * (res : ℚ) / 0x0f)

/-- Modelled from the spec: the external interpolation service (spline.h,
a collaborator outside this translation unit) that expands a control point
table into the dense f0 lookup table. The spec pins the output at each
control point code to that point's frequency, the later point winning at
coincident codes, and leaves the curve family between control points
open; between control points this model holds the most recent control
value. No theorem below inspects the table anywhere but at control point
codes. -/
def expandTable (ps : List fc_point) : Nat → ℤ :=
  fun c => ps.foldl (fun acc p => if p.1 ≤ c then (p.2 : ℤ) else acc) 0

/-- The filter state: the data members of the Filter class assigned in
filter.cc. The model field records the selected variant, which the C++
object identifies through its f0_points pointer. -/
structure Filter where
  enabled : Bool
  model : chip_model
  voice_DC : ℤ
  f0_points : List fc_point
  f0 : Nat → ℤ
  fc : Nat
  res : Nat
  filtex : Nat
  filt3_filt2_filt1 : Nat
  voice3off : Nat
  hp_bp_lp : Nat
  vol : Nat
  Vhp : ℤ
  Vbp : ℤ
  Vlp : ℤ
  Vnf : ℤ
  w0 : ℤ
  _1024_div_Q : ℤ

/-- Filter::set_w0: w0 = sound_sample(2*pi*f0[fc]*1.048576). -/
def set_w0 (s : Filter) : Filter :=
  { s with w0 := sound_sample_of (w0_exact (s.f0 s.fc)) }

/-- Filter::set_Q: _1024_div_Q = sound_sample(1024.0/(0.707 + 1.0*res/0x0f)). -/
def set_Q (s : Filter) : Filter :=
  { s with _1024_div_Q := sound_sample_of (Q_exact s.res) }

/-- Filter::enable_filter. -/
def enable_filter (enable : Bool) (s : Filter) : Filter :=
  { s with enabled := enable }

/-- The control point table selected by Filter::set_chip_model. -/
def pointsOf : chip_model → List fc_point
  | .MOS6581 => f0_6581
  | .MOS8580 => f0_8580

/-- The voice DC offset selected by Filter::set_chip_model: -4095*255/4
for the MOS6581 (C integer division truncates toward zero, giving
-261056), 0 for the MOS8580. -/
def voiceDCOf : chip_model → ℤ
  | .MOS6581 => -(4095 * 255 / 4 : ℕ)
  | .MOS8580 => 0

/-- Filter::set_chip_model: select voice_DC and f0_points for the variant,
then rebuild the f0 lookup table from the selected control points. -/
def set_chip_model (model : chip_model) (s : Filter) : Filter :=
  { s with model := model
         , voice_DC := voiceDCOf model
         , f0_points := pointsOf model
         , f0 := expandTable (pointsOf model) }

/-- Filter::reset: zero every register field and filter state variable,
then re-derive both coefficients. -/
def reset (s : Filter) : Filter :=
  set_Q (set_w0
    { s with fc := 0, res := 0, filtex := 0, filt3_filt2_filt1 := 0,
             voice3off := 0, hp_bp_lp := 0, vol := 0,
             Vhp := 0, Vbp := 0, Vlp := 0, Vnf := 0 })

/-- Filter::writeFC_LO: fc = fc & 0x7f8 | fc_lo & 0x007, then set_w0. -/
def writeFC_LO (fc_lo : Nat) (s : Filter) : Filter :=
  set_w0 { s with fc := s.fc &&& 0x7f8 ||| fc_lo &&& 0x007 }

/-- Filter::writeFC_HI: fc = (fc_hi << 3) & 0x7f8 | fc & 0x007, then set_w0. -/
def writeFC_HI (fc_hi : Nat) (s : Filter) : Filter :=
  set_w0 { s with fc := (fc_hi <<< 3) &&& 0x7f8 ||| s.fc &&& 0x007 }

/-- Filter::writeRES_FILT: res = (res_filt >> 4) & 0x0f, then set_Q; then
filtex = res_filt & 0x08 and filt3_filt2_filt1 = res_filt & 0x07. -/
def writeRES_FILT (res_filt : Nat) (s : Filter) : Filter :=
  let t := set_Q { s with res := (res_filt >>> 4) &&& 0x0f }
  { t with filtex := res_filt &&& 0x08,
           filt3_filt2_filt1 := res_filt &&& 0x07 }

/-- Filter::writeMODE_VOL: voice3off = mode_vol & 0x80,
hp_bp_lp = (mode_vol >> 4) & 0x07, vol = mode_vol & 0x0f. -/
def writeMODE_VOL (mode_vol : Nat) (s : Filter) : Filter :=
  { s with voice3off := mode_vol &&& 0x80,
           hp_bp_lp := (mode_vol >>> 4) &&& 0x07,
           vol := mode_vol &&& 0x0f }

/-- An arbitrary pre-construction state: the C++ members are uninitialized
before the constructor body runs, and the constructor overwrites every
field inspected by the theorems below. -/
def filterInit : Filter :=
  { enabled := false, model := .MOS6581, voice_DC := 0, f0_points := [],
    f0 := fun _ => 0, fc := 0, res := 0, filtex := 0, filt3_filt2_filt1 := 0,
    voice3off := 0, hp_bp_lp := 0, vol := 0, Vhp := 0, Vbp := 0, Vlp := 0,
    Vnf := 0, w0 := 0, _1024_div_Q := 0 }

/-- Filter::Filter: enable_filter(true); set_chip_model(MOS6581); reset(). -/
def mkFilter : Filter :=
  reset (set_chip_model .MOS6581 (enable_filter true filterInit))

/-- The externally reachable operations on the filter state. -/
inductive Op where
  | fcLo (b : Nat)
  | fcHi (b : Nat)
  | resFilt (b : Nat)
  | modeVol (b : Nat)
  | chipModel (m : chip_model)
  | enable (e : Bool)
  | doReset

/-- Dispatch of one operation. -/
def applyOp (s : Filter) : Op → Filter
  | .fcLo b => writeFC_LO b s
  | .fcHi b => writeFC_HI b s
  | .resFilt b => writeRES_FILT b s
  | .modeVol b => writeMODE_VOL b s
  | .chipModel m => set_chip_model m s
  | .enable e => enable_filter e s
  | .doReset => reset s

/-- A sequence of operations applied in order. -/
def applyOps (ops : List Op) (s : Filter) : Filter :=
  ops.foldl applyOp s

/-- A fresh configuration with the given variant and zeroed registers:
construction followed by variant selection and reset. -/
def freshConfigured (m : chip_model) : Filter :=
  reset (set_chip_model m mkFilter)

/-- Boolean check that a control point table has non-decreasing codes. -/
def codesNonDecreasing : List fc_point → Bool
  | [] => true
  | [_] => true
  | p :: q :: rest => decide (p.1 ≤ q.1) && codesNonDecreasing (q :: rest)

/-- Modelled from the spec: a well-formed control point table has at least
2 points, non-decreasing codes, first code 0 and last code 2047. -/
def wellFormedTable (ps : List fc_point) : Bool :=
  decide (2 ≤ ps.length) && (ps.head?.map Prod.fst == some 0) &&
    (ps.getLast?.map Prod.fst == some 2047) && codesNonDecreasing ps

/-- Modelled from the spec: the fail-fast curve expansion entry point of
section 7 of the spec. The validating expander (part of the interpolation
service of spline.h, absent from this translation unit) rejects a
malformed control point table instead of building a lookup table from it. -/
def expandTableChecked (ps : List fc_point) : Option (Nat → ℤ) :=
  if wellFormedTable ps then some (expandTable ps) else none

/- Helper lemmas shared by the claim theorems. -/

/-- Evaluating the w0 conversion: the exact rational product over the
literal pi collapses to a single integer floor division. -/
lemma w0_bridge (f : ℤ) :
    sound_sample_of (w0_exact f) =
      (2 * 31415926535897932385 * 1048576 * f) / 10 ^ 25 := by
  have h : w0_exact f =
      ((2 * 31415926535897932385 * 1048576 * f : ℤ) : ℚ) / ((10 ^ 25 : ℕ) : ℚ) := by
    unfold w0_exact pi_d
    push_cast
    norm_num
    ring
  rw [sound_sample_of, h, Rat.floor_intCast_div_natCast]
  norm_num

/-- Evaluating the Q conversion: the exact rational quotient collapses to
a single natural floor division. -/
lemma Q_bridge (res : ℕ) :
    sound_sample_of (Q_exact res) = ((15360000 / (10605 + 1000 * res) : ℕ) : ℤ) := by
  have h : Q_exact res = ((15360000 : ℕ) : ℚ) / ((10605 + 1000 * res : ℕ) : ℚ) := by
    unfold Q_exact
    have hd : ((10605 + 1000 * res : ℕ) : ℚ) ≠ 0 := by positivity
    field_simp
    ring
  rw [sound_sample_of, h, Rat.floor_natCast_div_natCast]
  rw [Int.natCast_div]

/-- Masking an 0x7f8/0x007 field composition with 0x007 recovers the low
field. -/
lemma mask_low (x y : ℕ) : (x &&& 2040 ||| y &&& 7) &&& 7 = y &&& 7 := by
  apply Nat.eq_of_testBit_eq
  intro i
  simp only [Nat.testBit_land, Nat.testBit_lor]
  by_cases h : i < 3
  · have h2040 : (2040 : ℕ).testBit i = false := by
      interval_cases i <;> decide
    simp [h2040]
  · have h7 : (7 : ℕ).testBit i = false := by
      apply Nat.testBit_lt_two_pow
      calc (7 : ℕ) < 2 ^ 3 := by decide
        _ ≤ 2 ^ i := Nat.pow_le_pow_right (by decide) (by omega)
    simp [h7]

/-- Masking an 0x7f8/0x007 field composition with 0x7f8 recovers the high
field. -/
lemma mask_high (x y : ℕ) : (x &&& 2040 ||| y &&& 7) &&& 2040 = x &&& 2040 := by
  apply Nat.eq_of_testBit_eq
  intro i
  simp only [Nat.testBit_land, Nat.testBit_lor]
  by_cases h : i < 3
  · have h2040 : (2040 : ℕ).testBit i = false := by
      interval_cases i <;> decide
    simp [h2040]
  · have h7 : (7 : ℕ).testBit i = false := by
      apply Nat.testBit_lt_two_pow
      calc (7 : ℕ) < 2 ^ 3 := by decide
        _ ≤ 2 ^ i := Nat.pow_le_pow_right (by decide) (by omega)
    simp [h7]

/-- The Boolean code ordering check agrees with the chain predicate. -/
lemma codesNonDecreasing_iff (ps : List fc_point) :
    codesNonDecreasing ps = true ↔ List.Chain' (fun p q : fc_point => p.1 ≤ q.1) ps := by
  induction ps with
  | nil => simp [codesNonDecreasing]
  | cons p rest ih =>
    cases rest with
    | nil => simp [codesNonDecreasing]
    | cons q rest2 =>
      simp only [codesNonDecreasing, Bool.and_eq_true, decide_eq_true_eq,
        List.chain'_cons, ih]

/-- Claim C2: both shipped control point tables are ordered with
non-decreasing codes, first code 0 and last code 2047; the MOS6581 table
carries the documented discontinuity exactly, with consecutive
coincident-code points assigning frequency 6000 to code 1023 and
frequency 4600 to code 1024. -/
theorem C2_control_point_tables :
    List.Chain' (fun p q : fc_point => p.1 ≤ q.1) f0_6581 ∧
    List.Chain' (fun p q : fc_point => p.1 ≤ q.1) f0_8580 ∧
    f0_6581.head?.map Prod.fst = some 0 ∧
    f0_6581.getLast?.map Prod.fst = some 2047 ∧
    f0_8580.head?.map Prod.fst = some 0 ∧
    f0_8580.getLast?.map Prod.fst = some 2047 ∧
    (1023, 6000) ∈ f0_6581 ∧ (1024, 4600) ∈ f0_6581 ∧
    f0_6581[13]? = some (1023, 6000) ∧ f0_6581[14]? = some (1023, 6000) ∧
    f0_6581[15]? = some (1024, 4600) ∧ f0_6581[16]? = some (1024, 4600) := by
  refine ⟨(codesNonDecreasing_iff _).mp (by decide),
    (codesNonDecreasing_iff _).mp (by decide), ?_⟩
  decide

/-- Claim C3: writing the low and high cutoff register bytes in either
order yields the final code ((hi << 3) & 0x7f8) | (lo & 0x007); the low
byte write replaces only the low 3 bits of the code and the high byte
write replaces only bits 3 to 10, each preserving the other field. -/
theorem C3_cutoff_write_order (lo hi : Nat) (s : Filter)
    (hlo : lo < 256) (hhi : hi < 256) :
    (writeFC_HI hi (writeFC_LO lo s)).fc = ((hi <<< 3) &&& 0x7f8) ||| (lo &&& 0x007) ∧
    (writeFC_LO lo (writeFC_HI hi s)).fc = ((hi <<< 3) &&& 0x7f8) ||| (lo &&& 0x007) ∧
    (writeFC_LO lo s).fc &&& 0x007 = lo &&& 0x007 ∧
    (writeFC_LO lo s).fc &&& 0x7f8 = s.fc &&& 0x7f8 ∧
    (writeFC_HI hi s).fc &&& 0x7f8 = (hi <<< 3) &&& 0x7f8 ∧
    (writeFC_HI hi s).fc &&& 0x007 = s.fc &&& 0x007 := by
  refine ⟨?_, ?_, mask_low s.fc lo, mask_high s.fc lo,
    mask_high (hi <<< 3) s.fc, mask_low (hi <<< 3) s.fc⟩
  · show (hi <<< 3) &&& 2040 ||| (s.fc &&& 2040 ||| lo &&& 7) &&& 7 = _
    rw [mask_low]
  · show ((hi <<< 3) &&& 2040 ||| s.fc &&& 7) &&& 2040 ||| lo &&& 7 = _
    rw [mask_high]

/-- Claim C3 witness: the write order theorem applied at the concrete
bytes lo = 5 and hi = 171 from the constructed state. -/
theorem C3_cutoff_write_order_witness :
    (writeFC_HI 171 (writeFC_LO 5 mkFilter)).fc = ((171 <<< 3) &&& 0x7f8) ||| (5 &&& 0x007) ∧
    (writeFC_LO 5 (writeFC_HI 171 mkFilter)).fc = ((171 <<< 3) &&& 0x7f8) ||| (5 &&& 0x007) ∧
    (writeFC_LO 5 mkFilter).fc &&& 0x007 = 5 &&& 0x007 ∧
    (writeFC_LO 5 mkFilter).fc &&& 0x7f8 = mkFilter.fc &&& 0x7f8 ∧
    (writeFC_HI 171 mkFilter).fc &&& 0x7f8 = (171 <<< 3) &&& 0x7f8 ∧
    (writeFC_HI 171 mkFilter).fc &&& 0x007 = mkFilter.fc &&& 0x007 :=
  C3_cutoff_write_order 5 171 mkFilter (by decide) (by decide)

/-- Claim C4: the damping coefficient is the integer conversion of
1024/(0.707 + res/15); it is strictly decreasing as res increases from 0
to 15, its divisor never drops below the 0.707 floor, and it evaluates to
1448 at res = 0 and to 599 (approximately 600) at res = 15. -/
theorem C4_damping_coefficient :
    (∀ r : Fin 16, (set_Q { mkFilter with res := r.val })._1024_div_Q =
        sound_sample_of (1024 / ((0.707 : ℚ) + 1 * (r.val : ℚ) / 15))) ∧
    (∀ r : Fin 15, (set_Q { mkFilter with res := r.val + 1 })._1024_div_Q <
        (set_Q { mkFilter with res := r.val })._1024_div_Q) ∧
    (set_Q { mkFilter with res := 0 })._1024_div_Q = 1448 ∧
    (set_Q { mkFilter with res := 15 })._1024_div_Q = 599 ∧
    ((set_Q { mkFilter with res := 15 })._1024_div_Q - 600).natAbs ≤ 1 ∧
    (∀ r : Fin 16, (0.707 : ℚ) ≤ (0.707 : ℚ) + 1 * (r.val : ℚ) / 15) := by
  refine ⟨?_, ?_, ?_, ?_, ?_, ?_⟩
  · intro r
    rfl
  · intro r
    have key : ∀ x : Fin 15,
        (15360000 / (10605 + 1000 * (x.val + 1)) : ℕ) <
          15360000 / (10605 + 1000 * x.val) := by decide
    show sound_sample_of (Q_exact (r.val + 1)) < sound_sample_of (Q_exact r.val)
    rw [Q_bridge, Q_bridge]
    exact_mod_cast key r
  · show sound_sample_of (Q_exact 0) = 1448
    rw [Q_bridge]
    decide
  · show sound_sample_of (Q_exact 15) = 599
    rw [Q_bridge]
    decide
  · show ((sound_sample_of (Q_exact 15)) - 600).natAbs ≤ 1
    rw [Q_bridge]
    decide
  · intro r
    have h : 0 ≤ 1 * (r.val : ℚ) / 15 := by positivity
    linarith

/-- Claim C7: set_w0 derives w0 as the integer conversion of the lookup
table entry at the current code multiplied by 2*pi and by 1.048576, and
dividing the exact pre-conversion value by 2^20 equals dividing the
unscaled product 2*pi*f0[fc] by 1000000. -/
theorem C7_w0_scaling (s : Filter) :
    (set_w0 s).w0 = sound_sample_of (2 * pi_d * ((s.f0 s.fc : ℚ)) * (1.048576 : ℚ)) ∧
    (∀ q : ℚ, 2 * pi_d * q * (1.048576 : ℚ) / 2 ^ 20 = 2 * pi_d * q / 1000000) := by
  constructor
  · rfl
  · intro q
    have h : (1.048576 : ℚ) = 2 ^ 20 / 1000000 := by norm_num
    rw [h]
    field_simp
    ring

/-- A single-bit mask is nonzero exactly when the corresponding bit of the
input is set. -/
lemma and_two_pow_ne_zero (b n : ℕ) : b &&& 2 ^ n ≠ 0 ↔ b.testBit n := by
  rw [Nat.and_two_pow]
  cases h : b.testBit n <;> simp

/-- Every operation preserves the 11-bit bound on fc and the 4-bit bound
on res. -/
lemma applyOp_bounds (s : Filter) (op : Op) (h1 : s.fc < 2048) (h2 : s.res < 16) :
    (applyOp s op).fc < 2048 ∧ (applyOp s op).res < 16 := by
  cases op with
  | fcLo b =>
    refine ⟨?_, h2⟩
    show s.fc &&& 2040 ||| b &&& 7 < 2048
    have ha : s.fc &&& 2040 < 2 ^ 11 := Nat.and_lt_two_pow _ (by decide)
    have hb : b &&& 7 < 2 ^ 11 := Nat.and_lt_two_pow _ (by decide)
    exact Nat.or_lt_two_pow ha hb
  | fcHi b =>
    refine ⟨?_, h2⟩
    show (b <<< 3) &&& 2040 ||| s.fc &&& 7 < 2048
    have ha : (b <<< 3) &&& 2040 < 2 ^ 11 := Nat.and_lt_two_pow _ (by decide)
    have hb : s.fc &&& 7 < 2 ^ 11 := Nat.and_lt_two_pow _ (by decide)
    exact Nat.or_lt_two_pow ha hb
  | resFilt b =>
    refine ⟨h1, ?_⟩
    show (b >>> 4) &&& 15 < 2 ^ 4
    exact Nat.and_lt_two_pow _ (by decide)
  | modeVol b => exact ⟨h1, h2⟩
  | chipModel m => exact ⟨h1, h2⟩
  | enable e => exact ⟨h1, h2⟩
  | doReset =>
    refine ⟨?_, ?_⟩
    · show (0 : ℕ) < 2048
      decide
    · show (0 : ℕ) < 16
      decide

/-- The register bounds hold after any operation sequence from a state
satisfying them. -/
lemma applyOps_bounds (ops : List Op) (s : Filter) (h1 : s.fc < 2048)
    (h2 : s.res < 16) :
    (applyOps ops s).fc < 2048 ∧ (applyOps ops s).res < 16 := by
  induction ops generalizing s with
  | nil => exact ⟨h1, h2⟩
  | cons op rest ih =>
    have h := applyOp_bounds s op h1 h2
    exact ih (applyOp s op) h.1 h.2

/-- The lookup table and stored control points always match the selected
variant after any operation sequence. -/
lemma applyOps_table (ops : List Op) (s : Filter)
    (h1 : s.f0 = expandTable (pointsOf s.model))
    (h2 : s.f0_points = pointsOf s.model) :
    (applyOps ops s).f0 = expandTable (pointsOf (applyOps ops s).model) ∧
    (applyOps ops s).f0_points = pointsOf (applyOps ops s).model := by
  induction ops generalizing s with
  | nil => exact ⟨h1, h2⟩
  | cons op rest ih =>
    have hA : (applyOp s op).f0 = expandTable (pointsOf (applyOp s op).model) := by
      cases op <;> simpa [applyOp, writeFC_LO, writeFC_HI, writeRES_FILT,
        writeMODE_VOL, set_chip_model, enable_filter, reset, set_w0, set_Q] using h1
    have hB : (applyOp s op).f0_points = pointsOf (applyOp s op).model := by
      cases op <;> simpa [applyOp, writeFC_LO, writeFC_HI, writeRES_FILT,
        writeMODE_VOL, set_chip_model, enable_filter, reset, set_w0, set_Q] using h2
    exact ih (applyOp s op) hA hB

/-- The well-formedness check agrees with the spec-level description of a
well-formed control point table. -/
lemma wellFormedTable_iff (ps : List fc_point) :
    wellFormedTable ps = true ↔
      2 ≤ ps.length ∧ ps.head?.map Prod.fst = some 0 ∧
      ps.getLast?.map Prod.fst = some 2047 ∧
      List.Chain' (fun p q : fc_point => p.1 ≤ q.1) ps := by
  unfold wellFormedTable
  simp only [Bool.and_eq_true, decide_eq_true_eq, beq_iff_eq,
    codesNonDecreasing_iff]
  tauto

/-- Claim C1 fails on the code: set_chip_model does not re-derive the
angular cutoff coefficient. From the constructed state (MOS6581, code 0,
w0 = 1449) a change to the MOS8580 leaves w0 = 1449, while re-deriving it
from the new lookup table at the current code would give 0. -/
theorem C1_chip_model_counterexample :
    (set_chip_model chip_model.MOS8580 mkFilter).w0 = 1449 ∧
    sound_sample_of (w0_exact ((set_chip_model chip_model.MOS8580 mkFilter).f0
        (set_chip_model chip_model.MOS8580 mkFilter).fc)) = 0 ∧
    (set_chip_model chip_model.MOS8580 mkFilter).w0 ≠
      sound_sample_of (w0_exact ((set_chip_model chip_model.MOS8580 mkFilter).f0
        (set_chip_model chip_model.MOS8580 mkFilter).fc)) := by
  have e1 : expandTable (pointsOf chip_model.MOS6581) 0 = 220 := by decide
  have e2 : expandTable (pointsOf chip_model.MOS8580) 0 = 0 := by decide
  have h1 : (set_chip_model chip_model.MOS8580 mkFilter).w0 = 1449 := by
    show sound_sample_of (w0_exact (expandTable (pointsOf chip_model.MOS6581) 0)) = 1449
    rw [e1, w0_bridge]
    decide
  have h2 : sound_sample_of (w0_exact ((set_chip_model chip_model.MOS8580 mkFilter).f0
      (set_chip_model chip_model.MOS8580 mkFilter).fc)) = 0 := by
    show sound_sample_of (w0_exact (expandTable (pointsOf chip_model.MOS8580) 0)) = 0
    rw [e2, w0_bridge]
    decide
  refine ⟨h1, h2, ?_⟩
  rw [h1, h2]
  decide

/-- Claim C1 amended: set_chip_model swaps the voice DC offset and the
control point table and rebuilds the cutoff lookup table, leaving every
register field, the filter state variables and both derived coefficients
unchanged; the coefficients are re-derived only by a later register write
or reset. -/
theorem C1_chip_model_amended (m : chip_model) (s : Filter) :
    (set_chip_model m s).fc = s.fc ∧
    (set_chip_model m s).res = s.res ∧
    (set_chip_model m s).filtex = s.filtex ∧
    (set_chip_model m s).filt3_filt2_filt1 = s.filt3_filt2_filt1 ∧
    (set_chip_model m s).voice3off = s.voice3off ∧
    (set_chip_model m s).hp_bp_lp = s.hp_bp_lp ∧
    (set_chip_model m s).vol = s.vol ∧
    (set_chip_model m s).enabled = s.enabled ∧
    (set_chip_model m s).Vhp = s.Vhp ∧
    (set_chip_model m s).Vbp = s.Vbp ∧
    (set_chip_model m s).Vlp = s.Vlp ∧
    (set_chip_model m s).Vnf = s.Vnf ∧
    (set_chip_model m s).model = m ∧
    (set_chip_model m s).voice_DC = voiceDCOf m ∧
    (set_chip_model m s).f0_points = pointsOf m ∧
    (set_chip_model m s).f0 = expandTable (pointsOf m) ∧
    (set_chip_model m s).w0 = s.w0 ∧
    (set_chip_model m s)._1024_div_Q = s._1024_div_Q :=
  ⟨rfl, rfl, rfl, rfl, rfl, rfl, rfl, rfl, rfl, rfl, rfl, rfl, rfl, rfl,
   rfl, rfl, rfl, rfl⟩

/-- Claim C5: after any operation sequence, reset zeroes every register
field and filter state variable, keeps the chip variant, and re-derives
both coefficients to the values of a fresh configuration with that
variant; a variant change followed immediately by reset likewise matches
the fresh configuration with that variant. -/
theorem C5_reset_state (ops : List Op) (m : chip_model) :
    (reset (applyOps ops mkFilter)).fc = 0 ∧
    (reset (applyOps ops mkFilter)).res = 0 ∧
    (reset (applyOps ops mkFilter)).filtex = 0 ∧
    (reset (applyOps ops mkFilter)).filt3_filt2_filt1 = 0 ∧
    (reset (applyOps ops mkFilter)).voice3off = 0 ∧
    (reset (applyOps ops mkFilter)).hp_bp_lp = 0 ∧
    (reset (applyOps ops mkFilter)).vol = 0 ∧
    (reset (applyOps ops mkFilter)).Vhp = 0 ∧
    (reset (applyOps ops mkFilter)).Vbp = 0 ∧
    (reset (applyOps ops mkFilter)).Vlp = 0 ∧
    (reset (applyOps ops mkFilter)).Vnf = 0 ∧
    (reset (applyOps ops mkFilter)).model = (applyOps ops mkFilter).model ∧
    (reset (applyOps ops mkFilter)).voice_DC = (applyOps ops mkFilter).voice_DC ∧
    (reset (applyOps ops mkFilter)).f0_points = (applyOps ops mkFilter).f0_points ∧
    (reset (applyOps ops mkFilter)).enabled = (applyOps ops mkFilter).enabled ∧
    (reset (applyOps ops mkFilter)).w0 =
      (freshConfigured (applyOps ops mkFilter).model).w0 ∧
    (reset (applyOps ops mkFilter))._1024_div_Q =
      (freshConfigured (applyOps ops mkFilter).model)._1024_div_Q ∧
    (reset (set_chip_model m (applyOps ops mkFilter))).w0 =
      (freshConfigured m).w0 ∧
    (reset (set_chip_model m (applyOps ops mkFilter)))._1024_div_Q =
      (freshConfigured m)._1024_div_Q := by
  have hinv := applyOps_table ops mkFilter rfl rfl
  refine ⟨rfl, rfl, rfl, rfl, rfl, rfl, rfl, rfl, rfl, rfl, rfl, rfl, rfl,
    rfl, rfl, ?_, rfl, rfl, rfl⟩
  show sound_sample_of (w0_exact ((applyOps ops mkFilter).f0 0)) =
    sound_sample_of (w0_exact
      (expandTable (pointsOf (applyOps ops mkFilter).model) 0))
  rw [hinv.1]

/-- Claim C6: after construction and any sequence of operations the
stored cutoff code is an 11-bit value and the stored resonance a 4-bit
value, for arbitrary (even out-of-range) input bytes: masking at the
write makes larger values impossible. -/
theorem C6_register_bounds (ops : List Op) :
    (applyOps ops mkFilter).fc < 2048 ∧ (applyOps ops mkFilter).res < 16 :=
  applyOps_bounds ops mkFilter (by decide) (by decide)

/-- Claim C8: the resonance/routing write stores the top 4 bits as
resonance (re-deriving the damping coefficient from them), bit 3 as the
external input enable and the low 3 bits as the voice enables; the
mode/volume write stores the top bit as voice-3-disable, bits 4 to 6 as
the response path selector and the low 4 bits as the volume; neither
write touches the angular cutoff coefficient, and the mode/volume write
touches no coefficient at all. -/
theorem C8_register_decode (b : Nat) (s : Filter) (hb : b < 256) :
    (writeRES_FILT b s).res = b / 16 ∧
    ((writeRES_FILT b s).filtex ≠ 0 ↔ b.testBit 3) ∧
    (writeRES_FILT b s).filt3_filt2_filt1 = b % 8 ∧
    (writeRES_FILT b s)._1024_div_Q = sound_sample_of (Q_exact (b / 16)) ∧
    (writeRES_FILT b s).w0 = s.w0 ∧
    ((writeMODE_VOL b s).voice3off ≠ 0 ↔ b.testBit 7) ∧
    (writeMODE_VOL b s).hp_bp_lp = b / 16 % 8 ∧
    (writeMODE_VOL b s).vol = b % 16 ∧
    (writeMODE_VOL b s).w0 = s.w0 ∧
    (writeMODE_VOL b s)._1024_div_Q = s._1024_div_Q := by
  have h16 : b >>> 4 = b / 16 := by
    rw [Nat.shiftRight_eq_div_pow]
  have hmask4 : ∀ x : ℕ, x &&& 15 = x % 16 := fun x => by
    rw [show (15 : ℕ) = 2 ^ 4 - 1 from rfl, Nat.and_pow_two_sub_one_eq_mod]
  have hmask3 : ∀ x : ℕ, x &&& 7 = x % 8 := fun x => by
    rw [show (7 : ℕ) = 2 ^ 3 - 1 from rfl, Nat.and_pow_two_sub_one_eq_mod]
  have hres : (b >>> 4) &&& 15 = b / 16 := by
    rw [h16, hmask4]
    omega
  refine ⟨hres, ?_, hmask3 b, ?_, rfl, ?_, ?_, hmask4 b, rfl, rfl⟩
  · show b &&& 8 ≠ 0 ↔ b.testBit 3
    rw [show (8 : ℕ) = 2 ^ 3 from rfl]
    exact and_two_pow_ne_zero b 3
  · show sound_sample_of (Q_exact ((b >>> 4) &&& 15)) =
      sound_sample_of (Q_exact (b / 16))
    rw [hres]
  · show b &&& 128 ≠ 0 ↔ b.testBit 7
    rw [show (128 : ℕ) = 2 ^ 7 from rfl]
    exact and_two_pow_ne_zero b 7
  · show (b >>> 4) &&& 7 = b / 16 % 8
    rw [h16, hmask3]

/-- Claim C8 witness: the decode theorem applied at the concrete byte
b = 165 from the constructed state. -/
theorem C8_register_decode_witness :
    (writeRES_FILT 165 mkFilter).res = 165 / 16 ∧
    ((writeRES_FILT 165 mkFilter).filtex ≠ 0 ↔ (165 : ℕ).testBit 3) ∧
    (writeRES_FILT 165 mkFilter).filt3_filt2_filt1 = 165 % 8 ∧
    (writeRES_FILT 165 mkFilter)._1024_div_Q = sound_sample_of (Q_exact (165 / 16)) ∧
    (writeRES_FILT 165 mkFilter).w0 = mkFilter.w0 ∧
    ((writeMODE_VOL 165 mkFilter).voice3off ≠ 0 ↔ (165 : ℕ).testBit 7) ∧
    (writeMODE_VOL 165 mkFilter).hp_bp_lp = 165 / 16 % 8 ∧
    (writeMODE_VOL 165 mkFilter).vol = 165 % 16 ∧
    (writeMODE_VOL 165 mkFilter).w0 = mkFilter.w0 ∧
    (writeMODE_VOL 165 mkFilter)._1024_div_Q = mkFilter._1024_div_Q :=
  C8_register_decode 165 mkFilter (by decide)

/-- Claim C9: a malformed control point table (non-monotonic codes, wrong
endpoints, or fewer than 2 points) supplied to the checked curve expander
is rejected, producing no lookup table, while both shipped tables pass
and are expanded. -/
theorem C9_malformed_table_rejected (ps : List fc_point)
    (h : ¬ (2 ≤ ps.length ∧ ps.head?.map Prod.fst = some 0 ∧
            ps.getLast?.map Prod.fst = some 2047 ∧
            List.Chain' (fun p q : fc_point => p.1 ≤ q.1) ps)) :
    expandTableChecked ps = none ∧
    expandTableChecked f0_6581 = some (expandTable f0_6581) ∧
    expandTableChecked f0_8580 = some (expandTable f0_8580) := by
  refine ⟨?_, ?_, ?_⟩
  · unfold expandTableChecked
    cases hw : wellFormedTable ps with
    | true => exact absurd ((wellFormedTable_iff ps).mp hw) h
    | false => simp
  · have hw : wellFormedTable f0_6581 = true := by decide
    simp [expandTableChecked, hw]
  · have hw : wellFormedTable f0_8580 = true := by decide
    simp [expandTableChecked, hw]

/-- Claim C9 witness: the rejection theorem applied to the concrete
single-point table [(0, 220)], which is too short to be well formed. -/
theorem C9_malformed_table_rejected_witness :
    expandTableChecked [((0 : ℕ), (220 : ℕ))] = none ∧
    expandTableChecked f0_6581 = some (expandTable f0_6581) ∧
    expandTableChecked f0_8580 = some (expandTable f0_8580) :=
  C9_malformed_table_rejected [(0, 220)] (by
    intro hcon
    have := hcon.1
    simp at this)

/-- Claim C10: a freshly constructed instance is fully configured: filter
enabled, variant MOS6581, all register fields and filter state variables
zero, lookup table built from the MOS6581 control points, and both
coefficients derived from the zeroed register state (w0 = 1449 from the
220 Hz entry at code 0, damping = 1448 at resonance 0); construction is
exactly enable_filter(true), set_chip_model(MOS6581), reset(). -/
theorem C10_construction_defaults :
    mkFilter.enabled = true ∧
    mkFilter.model = chip_model.MOS6581 ∧
    mkFilter.fc = 0 ∧ mkFilter.res = 0 ∧ mkFilter.filtex = 0 ∧
    mkFilter.filt3_filt2_filt1 = 0 ∧ mkFilter.voice3off = 0 ∧
    mkFilter.hp_bp_lp = 0 ∧ mkFilter.vol = 0 ∧ mkFilter.Vhp = 0 ∧
    mkFilter.Vbp = 0 ∧ mkFilter.Vlp = 0 ∧ mkFilter.Vnf = 0 ∧
    mkFilter.voice_DC = -261056 ∧
    mkFilter.f0_points = f0_6581 ∧
    mkFilter.f0 = expandTable f0_6581 ∧
    mkFilter.w0 = sound_sample_of (w0_exact (expandTable f0_6581 0)) ∧
    mkFilter.w0 = 1449 ∧
    mkFilter._1024_div_Q = sound_sample_of (Q_exact 0) ∧
    mkFilter._1024_div_Q = 1448 ∧
    mkFilter = reset (set_chip_model chip_model.MOS6581
      (enable_filter true filterInit)) := by
  have e1 : expandTable (pointsOf chip_model.MOS6581) 0 = 220 := by decide
  have hw : mkFilter.w0 = 1449 := by
    show sound_sample_of (w0_exact (expandTable (pointsOf chip_model.MOS6581) 0)) = 1449
    rw [e1, w0_bridge]
    decide
  have hq : mkFilter._1024_div_Q = 1448 := by
    show sound_sample_of (Q_exact 0) = 1448
    rw [Q_bridge]
    decide
  exact ⟨rfl, rfl, rfl, rfl, rfl, rfl, rfl, rfl, rfl, rfl, rfl, rfl, rfl,
    rfl, rfl, rfl, rfl, hw, rfl, hq, rfl⟩

end Resid
